import Mathlib

/-!
Verification of `stem/control.py`: the `BaseController` façade over a
`stem.socket.ControlSocket`.

The embedding models Python object identity with an explicit heap of
socket objects and controller objects addressed by `ObjRef`.  A controller
object is its attribute dictionary (the constructor assigns only
`_socket`); a socket object records which endpoint kind built it and its
dynamically assigned `_get_self` back-reference.  Every operation returns,
besides its result, the list of observable events it performed: attribute
writes and the method calls it made on socket objects.  The
`stem.socket` module itself is not part of the sources, so the values its
methods return and whether its transport constructors raise are abstract
parameters (`SocketOps`, `env`).
-/

namespace Stem

/-- A Python object reference: an index into the heap, standing for object
identity. -/
abbrev ObjRef := Nat

/-- The endpoint kinds from which `stem.socket` builds a control socket:
a TCP `ControlPort` from an address and port, or a Unix-domain
`ControlSocketFile` from a filesystem path. -/
inductive SocketKind where
  | controlPort (control_addr : String) (control_port : Nat)
  | controlSocketFile (socket_path : String)
deriving DecidableEq, Repr

/-- A socket object on the heap: the endpoint kind it was constructed from
and its `_get_self` attribute.  `_get_self` holds, when assigned, the
controller reference that the installed accessor closure returns (the
closure `provide_self` in `BaseController.__init__` is a constant function
returning the constructing controller). -/
structure Socket where
  kind : SocketKind
  getSelf : Option ObjRef
deriving DecidableEq, Repr

/-- A controller object on the heap: its attribute dictionary, newest
assignment first. -/
structure Controller where
  attrs : List (String × ObjRef)
deriving DecidableEq, Repr

/-- Python attribute lookup on a controller object: the most recent
assignment to the name, or `none` (an `AttributeError`) when the name was
never assigned. -/
def Controller.getattr (c : Controller) (name : String) : Option ObjRef :=
  (c.attrs.find? (fun p => p.1 == name)).map (fun p => p.2)

/-- The heap: all socket objects and all controller objects, addressed by
their index. -/
structure Heap where
  sockets : List Socket
  controllers : List Controller
deriving DecidableEq, Repr

/-- Replace the element at index `i` by its image under `f` (no change
when `i` is out of range). -/
def updateAt {α : Type} (l : List α) (i : Nat) (f : α → α) : List α :=
  match l, i with
  | [], _ => []
  | x :: xs, 0 => f x :: xs
  | x :: xs, n + 1 => x :: updateAt xs n f

def Heap.getSocket (h : Heap) (r : ObjRef) : Option Socket :=
  h.sockets.get? r

def Heap.getController (h : Heap) (r : ObjRef) : Option Controller :=
  h.controllers.get? r

/-- Attribute lookup through the heap on a controller reference. -/
def Heap.ctrlAttr (h : Heap) (r : ObjRef) (name : String) : Option ObjRef :=
  (h.getController r).bind (fun c => c.getattr name)

/-- The assignment `sock._get_self = provide_self` where `provide_self`
returns the controller `ctrl`. -/
def Heap.setGetSelf (h : Heap) (r : ObjRef) (ctrl : ObjRef) : Heap :=
  { h with sockets := updateAt h.sockets r (fun s => { s with getSelf := some ctrl }) }

/-- Allocate a fresh socket object of the given kind; its reference is the
next free index. -/
def Heap.allocSocket (h : Heap) (k : SocketKind) : Heap × ObjRef :=
  ({ h with sockets := h.sockets ++ [{ kind := k, getSelf := none }] }, h.sockets.length)

/-- Calling the accessor stored in a socket's `_get_self` attribute:
returns the controller it resolves to, or `none` when the attribute was
never assigned (or the reference is dangling). -/
def Heap.callGetSelf (h : Heap) (r : ObjRef) : Option ObjRef :=
  (h.getSocket r).bind (fun s => s.getSelf)

/-- An observable action of the controller code: an attribute write on a
controller object, the `_get_self` write on a socket object, or a method
call on a socket object.  `B` is the type of listener callbacks and `M`
the type of messages, both opaque to this layer. -/
inductive Event (B M : Type) where
  | setAttr (ctrl : ObjRef) (name : String) (value : ObjRef)
  | setGetSelf (sock : ObjRef) (ctrl : ObjRef)
  | callSend (sock : ObjRef) (message : M) (raw : Bool)
  | callRecv (sock : ObjRef)
  | callIsAlive (sock : ObjRef)
  | callConnect (sock : ObjRef)
  | callClose (sock : ObjRef)
  | callAddStatusListener (sock : ObjRef) (callback : B) (spawn : Bool)
  | callRemoveStatusListener (sock : ObjRef) (callback : B)
  | callMakeSocket (sock : ObjRef)
deriving DecidableEq, Repr

/-- Whether the event is a method call on a socket object (as opposed to a
plain attribute write). -/
def Event.isSocketCall {B M : Type} : Event B M → Bool
  | .setAttr _ _ _ => false
  | .setGetSelf _ _ => false
  | _ => true

/-- Whether the event is a write of a socket's `_get_self` attribute. -/
def Event.isSetGetSelf {B M : Type} : Event B M → Bool
  | .setGetSelf _ _ => true
  | _ => false

/-- Modelled from the spec: the behaviour of the owned
`stem.socket.ControlSocket`'s methods, which are external collaborators
("the underlying raw transport … specified only as a capability the core
consumes"); `stem.socket` is not among the sources.  Each field gives the
value the corresponding socket method returns; `V` is the type of such
values. -/
structure SocketOps (V B M : Type) where
  send : M → Bool → V
  recv : V
  is_alive : V
  connect : V
  close : V
  add_status_listener : B → Bool → V
  remove_status_listener : B → V

/-- A Python value as seen at this layer: `None`, a value returned by a
socket method, or an object reference. -/
inductive PyVal (V : Type) where
  | none
  | val (v : V)
  | ref (r : ObjRef)
deriving DecidableEq, Repr

/-- The only exception the controller's own code can raise: an attribute
lookup on a name that was never assigned. -/
inductive PyError where
  | attributeError (name : String)
deriving DecidableEq, Repr

namespace BaseController

/-- `BaseController.__init__(self, control_socket)`:

    self._socket = control_socket
    def provide_self(): return self
    self._socket._get_self = provide_self

A fresh controller object is allocated with `_socket` as its only
attribute (the base-class constructor is not invoked), and the socket just
stored in `_socket` gets its `_get_self` attribute pointed at the new
controller.  Returns the updated heap, the new controller's reference and
the performed events. -/
def init (B M : Type) (h : Heap) (control_socket : ObjRef) :
    Heap × ObjRef × List (Event B M) :=
  let self : ObjRef := h.controllers.length
  let h1 : Heap :=
    { h with controllers := h.controllers ++ [{ attrs := [("_socket", control_socket)] }] }
  let h2 : Heap := h1.setGetSelf control_socket self
  (h2, self, [Event.setAttr self "_socket" control_socket,
              Event.setGetSelf control_socket self])

/-- Modelled from the spec: `stem.socket.ControlPort(control_addr,
control_port)` — the TCP transport constructor of the external
`stem.socket` module.  Per the spec it "builds a TCP-backed Control
Socket" from the address and port, and construction "fail[s] with whatever
`ConnectionError` the underlying transport construction raises".  `env`
gives, for each endpoint kind, the connection error construction raises
(`none` meaning success); on success a fresh socket object of that kind is
allocated. -/
def mkControlPort {E : Type} (env : SocketKind → Option E) (h : Heap)
    (control_addr : String) (control_port : Nat) : Except E (Heap × ObjRef) :=
  match env (SocketKind.controlPort control_addr control_port) with
  | some e => Except.error e
  | none => Except.ok (h.allocSocket (SocketKind.controlPort control_addr control_port))

/-- Modelled from the spec: `stem.socket.ControlSocketFile(socket_path)` —
the Unix-domain-socket transport constructor of the external `stem.socket`
module, analogous to `mkControlPort`. -/
def mkControlSocketFile {E : Type} (env : SocketKind → Option E) (h : Heap)
    (socket_path : String) : Except E (Heap × ObjRef) :=
  match env (SocketKind.controlSocketFile socket_path) with
  | some e => Except.error e
  | none => Except.ok (h.allocSocket (SocketKind.controlSocketFile socket_path))

/-- `BaseController.from_port(control_addr = "127.0.0.1", control_port = 9051)`:

    control_port = stem.socket.ControlPort(control_addr, control_port)
    return BaseController(control_port)

An exception from `ControlPort` propagates unchanged. -/
def from_port (E B M : Type) (env : SocketKind → Option E) (h : Heap)
    (control_addr : String := "127.0.0.1") (control_port : Nat := 9051) :
    Except E (Heap × ObjRef) × List (Event B M) :=
  match mkControlPort env h control_addr control_port with
  | Except.error e => (Except.error e, [])
  | Except.ok (h1, sockRef) =>
    match init B M h1 sockRef with
    | (h2, self, tr) => (Except.ok (h2, self), tr)

/-- `BaseController.from_socket_file(socket_path = "/var/run/tor/control")`:

    control_socket = stem.socket.ControlSocketFile(socket_path)
    return BaseController(control_socket)

An exception from `ControlSocketFile` propagates unchanged. -/
def from_socket_file (E B M : Type) (env : SocketKind → Option E) (h : Heap)
    (socket_path : String := "/var/run/tor/control") :
    Except E (Heap × ObjRef) × List (Event B M) :=
  match mkControlSocketFile env h socket_path with
  | Except.error e => (Except.error e, [])
  | Except.ok (h1, sockRef) =>
    match init B M h1 sockRef with
    | (h2, self, tr) => (Except.ok (h2, self), tr)

/-- `def send(self, message, raw = False): self._socket.send(message, raw)` —
looks up `self._socket`, calls its `send` with the same arguments, discards
the call's value and returns `None`. -/
def send {V B M : Type} (ops : SocketOps V B M) (h : Heap) (self : ObjRef)
    (message : M) (raw : Bool := false) :
    Heap × Except PyError (PyVal V) × List (Event B M) :=
  match h.ctrlAttr self "_socket" with
  | none => (h, Except.error (PyError.attributeError "_socket"), [])
  | some s =>
    let _returned := ops.send message raw
    (h, Except.ok PyVal.none, [Event.callSend s message raw])

/-- `def recv(self): return self._socket.recv()` — returns exactly the
value the socket's `recv` produced. -/
def recv {V B M : Type} (ops : SocketOps V B M) (h : Heap) (self : ObjRef) :
    Heap × Except PyError (PyVal V) × List (Event B M) :=
  match h.ctrlAttr self "_socket" with
  | none => (h, Except.error (PyError.attributeError "_socket"), [])
  | some s => (h, Except.ok (PyVal.val ops.recv), [Event.callRecv s])

/-- `def is_alive(self): return self._socket.is_alive()`. -/
def is_alive {V B M : Type} (ops : SocketOps V B M) (h : Heap) (self : ObjRef) :
    Heap × Except PyError (PyVal V) × List (Event B M) :=
  match h.ctrlAttr self "_socket" with
  | none => (h, Except.error (PyError.attributeError "_socket"), [])
  | some s => (h, Except.ok (PyVal.val ops.is_alive), [Event.callIsAlive s])

/-- `def connect(self): self._socket.connect()` — the call's value is
discarded, `None` is returned. -/
def connect {V B M : Type} (ops : SocketOps V B M) (h : Heap) (self : ObjRef) :
    Heap × Except PyError (PyVal V) × List (Event B M) :=
  match h.ctrlAttr self "_socket" with
  | none => (h, Except.error (PyError.attributeError "_socket"), [])
  | some s =>
    let _returned := ops.connect
    (h, Except.ok PyVal.none, [Event.callConnect s])

/-- `def close(self): self._socket.close()` — the call's value is
discarded, `None` is returned. -/
def close {V B M : Type} (ops : SocketOps V B M) (h : Heap) (self : ObjRef) :
    Heap × Except PyError (PyVal V) × List (Event B M) :=
  match h.ctrlAttr self "_socket" with
  | none => (h, Except.error (PyError.attributeError "_socket"), [])
  | some s =>
    let _returned := ops.close
    (h, Except.ok PyVal.none, [Event.callClose s])

/-- `def get_socket(self): return self._socket` — a plain attribute read,
no socket method is called. -/
def get_socket {V B M : Type} (_ops : SocketOps V B M) (h : Heap) (self : ObjRef) :
    Heap × Except PyError (PyVal V) × List (Event B M) :=
  match h.ctrlAttr self "_socket" with
  | none => (h, Except.error (PyError.attributeError "_socket"), [])
  | some s => (h, Except.ok (PyVal.ref s), [])

/-- `def add_status_listener(self, callback, spawn = True):
self._socket.add_status_listener(callback, spawn)`. -/
def add_status_listener {V B M : Type} (ops : SocketOps V B M) (h : Heap) (self : ObjRef)
    (callback : B) (spawn : Bool := true) :
    Heap × Except PyError (PyVal V) × List (Event B M) :=
  match h.ctrlAttr self "_socket" with
  | none => (h, Except.error (PyError.attributeError "_socket"), [])
  | some s =>
    let _returned := ops.add_status_listener callback spawn
    (h, Except.ok PyVal.none, [Event.callAddStatusListener s callback spawn])

/-- `def remove_status_listener(self, callback):
self._socket.remove_status_listener(callback)`. -/
def remove_status_listener {V B M : Type} (ops : SocketOps V B M) (h : Heap) (self : ObjRef)
    (callback : B) :
    Heap × Except PyError (PyVal V) × List (Event B M) :=
  match h.ctrlAttr self "_socket" with
  | none => (h, Except.error (PyError.attributeError "_socket"), [])
  | some s =>
    let _returned := ops.remove_status_listener callback
    (h, Except.ok PyVal.none, [Event.callRemoveStatusListener s callback])

/-- `def _make_socket(self): self._control_socket._make_socket()` — reads
the attribute `_control_socket` on `self` and, were that to succeed,
would delegate to that object's `_make_socket`. -/
def make_socket_method {V B M : Type} (_ops : SocketOps V B M) (h : Heap) (self : ObjRef) :
    Heap × Except PyError (PyVal V) × List (Event B M) :=
  match h.ctrlAttr self "_control_socket" with
  | none => (h, Except.error (PyError.attributeError "_control_socket"), [])
  | some s => (h, Except.ok PyVal.none, [Event.callMakeSocket s])

end BaseController

/-- The heap produced by running `BaseController.__init__` on socket `s`. -/
def initHeap (B M : Type) (h : Heap) (s : ObjRef) : Heap :=
  (BaseController.init B M h s).1

/-- The reference of the controller produced by `BaseController.__init__`. -/
def initCtrl (B M : Type) (h : Heap) (s : ObjRef) : ObjRef :=
  (BaseController.init B M h s).2.1

/-- The events performed by `BaseController.__init__`. -/
def initEvents (B M : Type) (h : Heap) (s : ObjRef) : List (Event B M) :=
  (BaseController.init B M h s).2.2

/-- A concrete socket-operation table, for evaluating the theorems on
closed instances. -/
def opsW : SocketOps Nat Nat String :=
  { send := fun _ _ => 1, recv := 2, is_alive := 3, connect := 4, close := 5,
    add_status_listener := fun _ _ => 6, remove_status_listener := fun _ => 7 }

/-- A concrete heap holding one socket object and no controllers, for
evaluating the theorems on closed instances. -/
def heapW : Heap :=
  { sockets := [{ kind := SocketKind.controlSocketFile "/var/run/tor/control", getSelf := none }],
    controllers := [] }

/-- A transport environment in which every construction succeeds. -/
def envOk : SocketKind → Option Nat := fun _ => none

/-- A transport environment in which every construction raises error 42. -/
def envFail : SocketKind → Option Nat := fun _ => some 42

/-! ### Basic facts about the heap primitives -/

theorem get?_append_length {α : Type} (l : List α) (x : α) :
    (l ++ [x]).get? l.length = some x := by
  induction l with
  | nil => rfl
  | cons a t ih => simp [ih]

theorem get?_append_left {α : Type} (l l2 : List α) (i : Nat) (hi : i < l.length) :
    (l ++ l2).get? i = l.get? i := by
  induction l generalizing i with
  | nil => simp at hi
  | cons a t ih =>
    cases i with
    | zero => rfl
    | succ n => simpa using ih n (Nat.lt_of_succ_lt_succ hi)

theorem get?_of_lt {α : Type} (l : List α) (i : Nat) (hi : i < l.length) :
    ∃ x, l.get? i = some x := by
  induction l generalizing i with
  | nil => simp at hi
  | cons a t ih =>
    cases i with
    | zero => exact ⟨a, rfl⟩
    | succ n => simpa using ih n (Nat.lt_of_succ_lt_succ hi)

theorem updateAt_length {α : Type} (l : List α) (i : Nat) (f : α → α) :
    (updateAt l i f).length = l.length := by
  induction l generalizing i with
  | nil => rfl
  | cons a t ih =>
    cases i with
    | zero => rfl
    | succ n => simpa [updateAt] using ih n

theorem updateAt_get?_self {α : Type} (l : List α) (i : Nat) (f : α → α) :
    (updateAt l i f).get? i = (l.get? i).map f := by
  induction l generalizing i with
  | nil => rfl
  | cons a t ih =>
    cases i with
    | zero => rfl
    | succ n => simpa [updateAt] using ih n

theorem updateAt_append_length {α : Type} (l : List α) (x : α) (f : α → α) :
    updateAt (l ++ [x]) l.length f = l ++ [f x] := by
  induction l with
  | nil => rfl
  | cons a t ih => simp [updateAt, ih]

/-! ### Shape of a freshly constructed controller -/

/-- Unfolding `BaseController.init`: the new heap, the new controller's
reference and the events, written out. -/
theorem init_spec (B M : Type) (h : Heap) (s : ObjRef) :
    BaseController.init B M h s =
      ({ sockets := updateAt h.sockets s (fun sk => { sk with getSelf := some h.controllers.length }),
         controllers := h.controllers ++ [{ attrs := [("_socket", s)] }] },
       h.controllers.length,
       [Event.setAttr h.controllers.length "_socket" s,
        Event.setGetSelf s h.controllers.length]) := rfl

/-- The controller object a construction run leaves on the heap has
`_socket` as its only attribute. -/
theorem init_getController (B M : Type) (h : Heap) (s : ObjRef) :
    Heap.getController (BaseController.init B M h s).1 ((BaseController.init B M h s).2.1) =
      some { attrs := [("_socket", s)] } :=
  get?_append_length h.controllers _

/-- After construction, the controller's `_socket` attribute is the socket
supplied to the constructor. -/
theorem init_ctrlAttr (B M : Type) (h : Heap) (s : ObjRef) :
    Heap.ctrlAttr (BaseController.init B M h s).1 ((BaseController.init B M h s).2.1) "_socket" =
      some s := by
  unfold Heap.ctrlAttr
  rw [init_getController]
  rfl

/-- No construction run ever assigns `_control_socket`. -/
theorem init_ctrlAttr_control_socket (B M : Type) (h : Heap) (s : ObjRef) :
    Heap.ctrlAttr (BaseController.init B M h s).1 ((BaseController.init B M h s).2.1)
      "_control_socket" = none := by
  unfold Heap.ctrlAttr
  rw [init_getController]
  rfl

/-- After construction over a valid socket reference, the accessor stored
in the socket's `_get_self` resolves to the new controller. -/
theorem init_callGetSelf (B M : Type) (h : Heap) (s : ObjRef) (hs : s < h.sockets.length) :
    Heap.callGetSelf (BaseController.init B M h s).1 s =
      some ((BaseController.init B M h s).2.1) := by
  obtain ⟨sk, hsk⟩ := get?_of_lt h.sockets s hs
  unfold Heap.callGetSelf Heap.getSocket
  rw [init_spec]
  show ((updateAt h.sockets s _).get? s).bind _ = _
  rw [updateAt_get?_self, hsk]
  rfl

/-! ### The behaviour of each forwarding method on a controller whose
`_socket` attribute holds socket `s` -/

theorem send_eq {V B M : Type} (ops : SocketOps V B M) (hp : Heap) (c s : ObjRef)
    (hs : hp.ctrlAttr c "_socket" = some s) (m : M) (r : Bool) :
    BaseController.send ops hp c m r = (hp, Except.ok PyVal.none, [Event.callSend s m r]) := by
  unfold BaseController.send
  rw [hs]

theorem recv_eq {V B M : Type} (ops : SocketOps V B M) (hp : Heap) (c s : ObjRef)
    (hs : hp.ctrlAttr c "_socket" = some s) :
    BaseController.recv ops hp c = (hp, Except.ok (PyVal.val ops.recv), [Event.callRecv s]) := by
  unfold BaseController.recv
  rw [hs]

theorem is_alive_eq {V B M : Type} (ops : SocketOps V B M) (hp : Heap) (c s : ObjRef)
    (hs : hp.ctrlAttr c "_socket" = some s) :
    BaseController.is_alive ops hp c =
      (hp, Except.ok (PyVal.val ops.is_alive), [Event.callIsAlive s]) := by
  unfold BaseController.is_alive
  rw [hs]

theorem connect_eq {V B M : Type} (ops : SocketOps V B M) (hp : Heap) (c s : ObjRef)
    (hs : hp.ctrlAttr c "_socket" = some s) :
    BaseController.connect ops hp c = (hp, Except.ok PyVal.none, [Event.callConnect s]) := by
  unfold BaseController.connect
  rw [hs]

theorem close_eq {V B M : Type} (ops : SocketOps V B M) (hp : Heap) (c s : ObjRef)
    (hs : hp.ctrlAttr c "_socket" = some s) :
    BaseController.close ops hp c = (hp, Except.ok PyVal.none, [Event.callClose s]) := by
  unfold BaseController.close
  rw [hs]

theorem get_socket_eq {V B M : Type} (ops : SocketOps V B M) (hp : Heap) (c s : ObjRef)
    (hs : hp.ctrlAttr c "_socket" = some s) :
    BaseController.get_socket ops hp c = (hp, Except.ok (PyVal.ref s), []) := by
  unfold BaseController.get_socket
  rw [hs]

theorem add_status_listener_eq {V B M : Type} (ops : SocketOps V B M) (hp : Heap) (c s : ObjRef)
    (hs : hp.ctrlAttr c "_socket" = some s) (cb : B) (sp : Bool) :
    BaseController.add_status_listener ops hp c cb sp =
      (hp, Except.ok PyVal.none, [Event.callAddStatusListener s cb sp]) := by
  unfold BaseController.add_status_listener
  rw [hs]

theorem remove_status_listener_eq {V B M : Type} (ops : SocketOps V B M) (hp : Heap) (c s : ObjRef)
    (hs : hp.ctrlAttr c "_socket" = some s) (cb : B) :
    BaseController.remove_status_listener ops hp c cb =
      (hp, Except.ok PyVal.none, [Event.callRemoveStatusListener s cb]) := by
  unfold BaseController.remove_status_listener
  rw [hs]

theorem make_socket_eq {V B M : Type} (ops : SocketOps V B M) (hp : Heap) (c : ObjRef)
    (hnone : hp.ctrlAttr c "_control_socket" = none) :
    BaseController.make_socket_method ops hp c =
      (hp, Except.error (PyError.attributeError "_control_socket"), []) := by
  unfold BaseController.make_socket_method
  rw [hnone]

/-- Unfolding `BaseController.from_port` when transport construction
succeeds: the fresh `ControlPort` socket is allocated and `__init__` runs
on it. -/
theorem from_port_ok (E B M : Type) (env : SocketKind → Option E) (h : Heap)
    (addr : String) (port : Nat) (henv : env (SocketKind.controlPort addr port) = none) :
    BaseController.from_port E B M env h addr port =
      (Except.ok
        (initHeap B M (h.allocSocket (SocketKind.controlPort addr port)).1
           (h.allocSocket (SocketKind.controlPort addr port)).2,
         initCtrl B M (h.allocSocket (SocketKind.controlPort addr port)).1
           (h.allocSocket (SocketKind.controlPort addr port)).2),
       initEvents B M (h.allocSocket (SocketKind.controlPort addr port)).1
         (h.allocSocket (SocketKind.controlPort addr port)).2) := by
  unfold BaseController.from_port BaseController.mkControlPort
  rw [henv]
  rfl

/-- Unfolding `BaseController.from_socket_file` when transport
construction succeeds. -/
theorem from_socket_file_ok (E B M : Type) (env : SocketKind → Option E) (h : Heap)
    (socket_path : String)
    (henv : env (SocketKind.controlSocketFile socket_path) = none) :
    BaseController.from_socket_file E B M env h socket_path =
      (Except.ok
        (initHeap B M (h.allocSocket (SocketKind.controlSocketFile socket_path)).1
           (h.allocSocket (SocketKind.controlSocketFile socket_path)).2,
         initCtrl B M (h.allocSocket (SocketKind.controlSocketFile socket_path)).1
           (h.allocSocket (SocketKind.controlSocketFile socket_path)).2),
       initEvents B M (h.allocSocket (SocketKind.controlSocketFile socket_path)).1
         (h.allocSocket (SocketKind.controlSocketFile socket_path)).2) := by
  unfold BaseController.from_socket_file BaseController.mkControlSocketFile
  rw [henv]
  rfl

/-- Running `__init__` on a freshly allocated socket: the allocated
socket's `_get_self` ends up pointing at the new controller, whose only
attribute is the fresh socket's reference. -/
theorem initHeap_alloc (B M : Type) (h : Heap) (k : SocketKind) :
    initHeap B M (h.allocSocket k).1 (h.allocSocket k).2 =
      { sockets := h.sockets ++ [{ kind := k, getSelf := some h.controllers.length }],
        controllers := h.controllers ++ [{ attrs := [("_socket", h.sockets.length)] }] } := by
  show ({ sockets := updateAt (h.sockets ++ [{ kind := k, getSelf := none }]) h.sockets.length
            (fun sk => { sk with getSelf := some h.controllers.length }),
          controllers := h.controllers ++ [{ attrs := [("_socket", h.sockets.length)] }] } : Heap) =
    { sockets := h.sockets ++ [{ kind := k, getSelf := some h.controllers.length }],
      controllers := h.controllers ++ [{ attrs := [("_socket", h.sockets.length)] }] }
  rw [updateAt_append_length]

/-- Unfolding `BaseController.from_port` when transport construction
raises: the error propagates unchanged and nothing else happens. -/
theorem from_port_error (E B M : Type) (env : SocketKind → Option E) (h : Heap)
    (addr : String) (port : Nat) (e : E)
    (henv : env (SocketKind.controlPort addr port) = some e) :
    BaseController.from_port E B M env h addr port = (Except.error e, []) := by
  unfold BaseController.from_port BaseController.mkControlPort
  rw [henv]

/-- Unfolding `BaseController.from_socket_file` when transport
construction raises: the error propagates unchanged and nothing else
happens. -/
theorem from_socket_file_error (E B M : Type) (env : SocketKind → Option E) (h : Heap)
    (socket_path : String) (e : E)
    (henv : env (SocketKind.controlSocketFile socket_path) = some e) :
    BaseController.from_socket_file E B M env h socket_path = (Except.error e, []) := by
  unfold BaseController.from_socket_file BaseController.mkControlSocketFile
  rw [henv]

/-! ### The claims -/

/-- **C1** (amended).  For every controller constructed over a socket `s`:
the controller object carries no state beyond its `_socket` attribute
holding `s`; each of `send`, `recv`, `is_alive`, `connect`, `close`,
`add_status_listener` and `remove_status_listener` leaves the heap
unchanged and performs exactly the one same-named call on `s` with the
same arguments; `get_socket` leaves the heap unchanged and performs no
socket call at all, returning the reference `s` directly. -/
theorem c1_forwarding_delegation (V B M : Type) (ops : SocketOps V B M) (h : Heap)
    (s : ObjRef) (m : M) (r : Bool) (cb : B) (sp : Bool) :
    Heap.getController (initHeap B M h s) (initCtrl B M h s) =
      some { attrs := [("_socket", s)] } ∧
    BaseController.send ops (initHeap B M h s) (initCtrl B M h s) m r =
      (initHeap B M h s, Except.ok PyVal.none, [Event.callSend s m r]) ∧
    BaseController.recv ops (initHeap B M h s) (initCtrl B M h s) =
      (initHeap B M h s, Except.ok (PyVal.val ops.recv), [Event.callRecv s]) ∧
    BaseController.is_alive ops (initHeap B M h s) (initCtrl B M h s) =
      (initHeap B M h s, Except.ok (PyVal.val ops.is_alive), [Event.callIsAlive s]) ∧
    BaseController.connect ops (initHeap B M h s) (initCtrl B M h s) =
      (initHeap B M h s, Except.ok PyVal.none, [Event.callConnect s]) ∧
    BaseController.close ops (initHeap B M h s) (initCtrl B M h s) =
      (initHeap B M h s, Except.ok PyVal.none, [Event.callClose s]) ∧
    BaseController.add_status_listener ops (initHeap B M h s) (initCtrl B M h s) cb sp =
      (initHeap B M h s, Except.ok PyVal.none, [Event.callAddStatusListener s cb sp]) ∧
    BaseController.remove_status_listener ops (initHeap B M h s) (initCtrl B M h s) cb =
      (initHeap B M h s, Except.ok PyVal.none, [Event.callRemoveStatusListener s cb]) ∧
    BaseController.get_socket ops (initHeap B M h s) (initCtrl B M h s) =
      (initHeap B M h s, Except.ok (PyVal.ref s), []) := by
  have hs := init_ctrlAttr B M h s
  exact ⟨init_getController B M h s,
         send_eq ops _ _ s hs m r,
         recv_eq ops _ _ s hs,
         is_alive_eq ops _ _ s hs,
         connect_eq ops _ _ s hs,
         close_eq ops _ _ s hs,
         add_status_listener_eq ops _ _ s hs cb sp,
         remove_status_listener_eq ops _ _ s hs cb,
         get_socket_eq ops _ _ s hs⟩

/-- **C1** counterexample.  On a concretely constructed controller,
`get_socket` performs no call on the owned socket whatsoever — its event
list is empty, so in particular it does not invoke a same-named operation
on `s` — refuting the claim that every one of the listed operations
"invokes exactly the same-named operation on s with the same arguments"
(`get_socket` is `return self._socket`, a plain attribute read). -/
theorem c1_get_socket_counterexample :
    (BaseController.get_socket opsW (initHeap Nat String heapW 0)
        (initCtrl Nat String heapW 0)).2.2 = ([] : List (Event Nat String)) ∧
    ((BaseController.get_socket opsW (initHeap Nat String heapW 0)
        (initCtrl Nat String heapW 0)).2.2.filter Event.isSocketCall).length = 0 := by
  decide

/-- **C6**.  For every controller constructed over a socket `s`,
`get_socket` returns exactly the reference `s` — the same socket the
forwarding methods delegate their calls to and the one supplied at
construction — leaving the heap unchanged and performing no event. -/
theorem c6_get_socket_identity (V B M : Type) (ops : SocketOps V B M) (h : Heap)
    (s : ObjRef) (m : M) (r : Bool) :
    BaseController.get_socket ops (initHeap B M h s) (initCtrl B M h s) =
      (initHeap B M h s, Except.ok (PyVal.ref s), []) ∧
    BaseController.send ops (initHeap B M h s) (initCtrl B M h s) m r =
      (initHeap B M h s, Except.ok PyVal.none, [Event.callSend s m r]) := by
  have hs := init_ctrlAttr B M h s
  exact ⟨get_socket_eq ops _ _ s hs, send_eq ops _ _ s hs m r⟩

/-- **C7**.  `send` takes an optional `raw` flag defaulting to `false`:
calling it without the flag is exactly calling it with `false`, which
performs the socket call `send(m, false)`; and with an explicit flag `r`
both the message and the flag are forwarded unchanged. -/
theorem c7_send_default_raw (V B M : Type) (ops : SocketOps V B M) (h : Heap)
    (s : ObjRef) (m : M) (r : Bool) :
    BaseController.send ops (initHeap B M h s) (initCtrl B M h s) m =
      BaseController.send ops (initHeap B M h s) (initCtrl B M h s) m false ∧
    BaseController.send ops (initHeap B M h s) (initCtrl B M h s) m =
      (initHeap B M h s, Except.ok PyVal.none, [Event.callSend s m false]) ∧
    BaseController.send ops (initHeap B M h s) (initCtrl B M h s) m r =
      (initHeap B M h s, Except.ok PyVal.none, [Event.callSend s m r]) := by
  have hs := init_ctrlAttr B M h s
  exact ⟨rfl, send_eq ops _ _ s hs m false, send_eq ops _ _ s hs m r⟩

/-- **C9**.  On a constructed controller, `send`, `connect` and `close`
return `None` whatever values the socket's methods produce (the delegated
call's value is discarded), while `recv`, `is_alive` and `get_socket`
return exactly the value the delegated lookup or call produced. -/
theorem c9_return_values (V B M : Type) (ops : SocketOps V B M) (h : Heap)
    (s : ObjRef) (m : M) (r : Bool) :
    (BaseController.send ops (initHeap B M h s) (initCtrl B M h s) m r).2.1 =
      Except.ok PyVal.none ∧
    (BaseController.connect ops (initHeap B M h s) (initCtrl B M h s)).2.1 =
      Except.ok PyVal.none ∧
    (BaseController.close ops (initHeap B M h s) (initCtrl B M h s)).2.1 =
      Except.ok PyVal.none ∧
    (BaseController.recv ops (initHeap B M h s) (initCtrl B M h s)).2.1 =
      Except.ok (PyVal.val ops.recv) ∧
    (BaseController.is_alive ops (initHeap B M h s) (initCtrl B M h s)).2.1 =
      Except.ok (PyVal.val ops.is_alive) ∧
    (BaseController.get_socket ops (initHeap B M h s) (initCtrl B M h s)).2.1 =
      Except.ok (PyVal.ref s) := by
  have hs : Heap.ctrlAttr (initHeap B M h s) (initCtrl B M h s) "_socket" = some s :=
    init_ctrlAttr B M h s
  refine ⟨?_, ?_, ?_, ?_, ?_, ?_⟩
  · rw [send_eq ops _ _ s hs m r]
  · rw [connect_eq ops _ _ s hs]
  · rw [close_eq ops _ _ s hs]
  · rw [recv_eq ops _ _ s hs]
  · rw [is_alive_eq ops _ _ s hs]
  · rw [get_socket_eq ops _ _ s hs]

/-- **C2**.  `from_port` called with no arguments uses the defaults
`"127.0.0.1"` and `9051`, allocates a fresh `ControlPort` socket built
from exactly those values, and returns a controller whose `_socket`
attribute is exactly that socket's reference. -/
theorem c2_from_port_defaults (E B M : Type) (env : SocketKind → Option E) (h : Heap)
    (henv : env (SocketKind.controlPort "127.0.0.1" 9051) = none) :
    BaseController.from_port E B M env h =
      (Except.ok
        ({ sockets := h.sockets ++ [{ kind := SocketKind.controlPort "127.0.0.1" 9051,
                                      getSelf := some h.controllers.length }],
           controllers := h.controllers ++ [{ attrs := [("_socket", h.sockets.length)] }] },
         h.controllers.length),
       [Event.setAttr h.controllers.length "_socket" h.sockets.length,
        Event.setGetSelf h.sockets.length h.controllers.length]) ∧
    Heap.ctrlAttr
      { sockets := h.sockets ++ [{ kind := SocketKind.controlPort "127.0.0.1" 9051,
                                   getSelf := some h.controllers.length }],
        controllers := h.controllers ++ [{ attrs := [("_socket", h.sockets.length)] }] }
      h.controllers.length "_socket" = some h.sockets.length ∧
    Heap.getSocket
      { sockets := h.sockets ++ [{ kind := SocketKind.controlPort "127.0.0.1" 9051,
                                   getSelf := some h.controllers.length }],
        controllers := h.controllers ++ [{ attrs := [("_socket", h.sockets.length)] }] }
      h.sockets.length =
      some { kind := SocketKind.controlPort "127.0.0.1" 9051,
             getSelf := some h.controllers.length } := by
  refine ⟨?_, ?_, ?_⟩
  · rw [from_port_ok E B M env h "127.0.0.1" 9051 henv,
       initHeap_alloc B M h (SocketKind.controlPort "127.0.0.1" 9051)]
    rfl
  · unfold Heap.ctrlAttr Heap.getController
    show ((h.controllers ++ _).get? h.controllers.length).bind _ = _
    rw [get?_append_length]
    rfl
  · unfold Heap.getSocket
    show (h.sockets ++ _).get? h.sockets.length = _
    rw [get?_append_length]

/-- **C2** witness: the theorem evaluated over the concrete heap `heapW`
and the always-successful transport environment. -/
theorem c2_witness :
    envOk (SocketKind.controlPort "127.0.0.1" 9051) = none ∧
    BaseController.from_port Nat Nat String envOk heapW =
      (Except.ok
        ({ sockets := heapW.sockets ++ [{ kind := SocketKind.controlPort "127.0.0.1" 9051,
                                          getSelf := some heapW.controllers.length }],
           controllers := heapW.controllers ++
             [{ attrs := [("_socket", heapW.sockets.length)] }] },
         heapW.controllers.length),
       [Event.setAttr heapW.controllers.length "_socket" heapW.sockets.length,
        Event.setGetSelf heapW.sockets.length heapW.controllers.length]) :=
  ⟨rfl, (c2_from_port_defaults Nat Nat String envOk heapW rfl).1⟩

/-- **C3**.  `from_socket_file` called with no arguments uses the default
path `"/var/run/tor/control"`, allocates a fresh `ControlSocketFile`
socket built from exactly that path, and returns a controller whose
`_socket` attribute is exactly that socket's reference. -/
theorem c3_from_socket_file_defaults (E B M : Type) (env : SocketKind → Option E) (h : Heap)
    (henv : env (SocketKind.controlSocketFile "/var/run/tor/control") = none) :
    BaseController.from_socket_file E B M env h =
      (Except.ok
        ({ sockets := h.sockets ++
             [{ kind := SocketKind.controlSocketFile "/var/run/tor/control",
                getSelf := some h.controllers.length }],
           controllers := h.controllers ++ [{ attrs := [("_socket", h.sockets.length)] }] },
         h.controllers.length),
       [Event.setAttr h.controllers.length "_socket" h.sockets.length,
        Event.setGetSelf h.sockets.length h.controllers.length]) ∧
    Heap.ctrlAttr
      { sockets := h.sockets ++
          [{ kind := SocketKind.controlSocketFile "/var/run/tor/control",
             getSelf := some h.controllers.length }],
        controllers := h.controllers ++ [{ attrs := [("_socket", h.sockets.length)] }] }
      h.controllers.length "_socket" = some h.sockets.length ∧
    Heap.getSocket
      { sockets := h.sockets ++
          [{ kind := SocketKind.controlSocketFile "/var/run/tor/control",
             getSelf := some h.controllers.length }],
        controllers := h.controllers ++ [{ attrs := [("_socket", h.sockets.length)] }] }
      h.sockets.length =
      some { kind := SocketKind.controlSocketFile "/var/run/tor/control",
             getSelf := some h.controllers.length } := by
  refine ⟨?_, ?_, ?_⟩
  · rw [from_socket_file_ok E B M env h "/var/run/tor/control" henv,
       initHeap_alloc B M h (SocketKind.controlSocketFile "/var/run/tor/control")]
    rfl
  · unfold Heap.ctrlAttr Heap.getController
    show ((h.controllers ++ _).get? h.controllers.length).bind _ = _
    rw [get?_append_length]
    rfl
  · unfold Heap.getSocket
    show (h.sockets ++ _).get? h.sockets.length = _
    rw [get?_append_length]

/-- **C3** witness: the theorem evaluated over the concrete heap `heapW`
and the always-successful transport environment. -/
theorem c3_witness :
    envOk (SocketKind.controlSocketFile "/var/run/tor/control") = none ∧
    BaseController.from_socket_file Nat Nat String envOk heapW =
      (Except.ok
        ({ sockets := heapW.sockets ++
             [{ kind := SocketKind.controlSocketFile "/var/run/tor/control",
                getSelf := some heapW.controllers.length }],
           controllers := heapW.controllers ++
             [{ attrs := [("_socket", heapW.sockets.length)] }] },
         heapW.controllers.length),
       [Event.setAttr heapW.controllers.length "_socket" heapW.sockets.length,
        Event.setGetSelf heapW.sockets.length heapW.controllers.length]) :=
  ⟨rfl, (c3_from_socket_file_defaults Nat Nat String envOk heapW rfl).1⟩

/-- **C4**.  Each named constructor propagates unchanged whatever error the
transport construction raises — when it raises, the result is exactly that
error, no controller is produced and no event is performed — and, raising
or not, neither constructor ever calls a socket method (no handshake, no
authentication): the events of either constructor contain no socket call. -/
theorem c4_constructors_propagate (E B M : Type) (env : SocketKind → Option E) (h : Heap)
    (addr socket_path : String) (port : Nat) (e e2 : E) :
    (env (SocketKind.controlPort addr port) = some e →
      BaseController.from_port E B M env h addr port = (Except.error e, [])) ∧
    (env (SocketKind.controlSocketFile socket_path) = some e2 →
      BaseController.from_socket_file E B M env h socket_path = (Except.error e2, [])) ∧
    (BaseController.from_port E B M env h addr port).2.filter Event.isSocketCall = [] ∧
    (BaseController.from_socket_file E B M env h socket_path).2.filter
      Event.isSocketCall = [] := by
  refine ⟨from_port_error E B M env h addr port e,
          from_socket_file_error E B M env h socket_path e2, ?_, ?_⟩
  · cases henv : env (SocketKind.controlPort addr port) with
    | none =>
      rw [from_port_ok E B M env h addr port henv]
      rfl
    | some e3 =>
      rw [from_port_error E B M env h addr port e3 henv]
      rfl
  · cases henv : env (SocketKind.controlSocketFile socket_path) with
    | none =>
      rw [from_socket_file_ok E B M env h socket_path henv]
      rfl
    | some e3 =>
      rw [from_socket_file_error E B M env h socket_path e3 henv]
      rfl

/-- **C4** witness: both constructors evaluated under a transport
environment that raises error `42`, and the no-socket-call fact under the
successful environment. -/
theorem c4_witness :
    envFail (SocketKind.controlPort "10.0.0.1" 9951) = some 42 ∧
    BaseController.from_port Nat Nat String envFail heapW "10.0.0.1" 9951 =
      (Except.error 42, []) ∧
    envFail (SocketKind.controlSocketFile "/tmp/ctl") = some 42 ∧
    BaseController.from_socket_file Nat Nat String envFail heapW "/tmp/ctl" =
      (Except.error 42, []) ∧
    (BaseController.from_port Nat Nat String envOk heapW).2.filter Event.isSocketCall = [] :=
  ⟨rfl,
   (c4_constructors_propagate Nat Nat String envFail heapW "10.0.0.1" "/tmp/ctl"
      9951 42 42).1 rfl,
   rfl,
   (c4_constructors_propagate Nat Nat String envFail heapW "10.0.0.1" "/tmp/ctl"
      9951 42 42).2.1 rfl,
   (c4_constructors_propagate Nat Nat String envOk heapW "127.0.0.1" "/tmp/ctl"
      9051 42 42).2.2.1⟩

/-- **C5**.  After constructing a controller over a (valid) socket `s`,
calling the accessor installed in `s`'s `_get_self` returns exactly the
new controller, and the construction's events contain exactly one
`_get_self` assignment: the one made at construction time. -/
theorem c5_back_reference (B M : Type) (h : Heap) (s : ObjRef)
    (hs : s < h.sockets.length) :
    Heap.callGetSelf (initHeap B M h s) s = some (initCtrl B M h s) ∧
    (initEvents B M h s).filter Event.isSetGetSelf =
      [Event.setGetSelf s (initCtrl B M h s)] :=
  ⟨init_callGetSelf B M h s hs, rfl⟩

/-- **C5** witness: the theorem evaluated over the concrete heap `heapW`
and its socket `0`. -/
theorem c5_witness :
    0 < heapW.sockets.length ∧
    (Heap.callGetSelf (initHeap Nat String heapW 0) 0 = some (initCtrl Nat String heapW 0) ∧
     (initEvents Nat String heapW 0).filter Event.isSetGetSelf =
       [Event.setGetSelf 0 (initCtrl Nat String heapW 0)]) :=
  ⟨by decide, c5_back_reference Nat String heapW 0 (by decide)⟩

/-- **C8**.  `_make_socket` raises `AttributeError("_control_socket")` on a
controller constructed by `__init__`, and likewise on the controllers the
two named constructors return when transport construction succeeds: no
constructor ever assigns `_control_socket` (the stored attribute is
`_socket`), so the lookup `self._control_socket` always fails. -/
theorem c8_make_socket_attribute_error (V E B M : Type) (ops : SocketOps V B M)
    (env : SocketKind → Option E) (h : Heap) (s : ObjRef)
    (addr socket_path : String) (port : Nat)
    (hp : env (SocketKind.controlPort addr port) = none)
    (hq : env (SocketKind.controlSocketFile socket_path) = none) :
    BaseController.make_socket_method ops (initHeap B M h s) (initCtrl B M h s) =
      (initHeap B M h s, Except.error (PyError.attributeError "_control_socket"), []) ∧
    (BaseController.from_port E B M env h addr port).1 =
      Except.ok
        (initHeap B M (h.allocSocket (SocketKind.controlPort addr port)).1
           (h.allocSocket (SocketKind.controlPort addr port)).2,
         initCtrl B M (h.allocSocket (SocketKind.controlPort addr port)).1
           (h.allocSocket (SocketKind.controlPort addr port)).2) ∧
    BaseController.make_socket_method ops
        (initHeap B M (h.allocSocket (SocketKind.controlPort addr port)).1
           (h.allocSocket (SocketKind.controlPort addr port)).2)
        (initCtrl B M (h.allocSocket (SocketKind.controlPort addr port)).1
           (h.allocSocket (SocketKind.controlPort addr port)).2) =
      (initHeap B M (h.allocSocket (SocketKind.controlPort addr port)).1
         (h.allocSocket (SocketKind.controlPort addr port)).2,
       Except.error (PyError.attributeError "_control_socket"), []) ∧
    (BaseController.from_socket_file E B M env h socket_path).1 =
      Except.ok
        (initHeap B M (h.allocSocket (SocketKind.controlSocketFile socket_path)).1
           (h.allocSocket (SocketKind.controlSocketFile socket_path)).2,
         initCtrl B M (h.allocSocket (SocketKind.controlSocketFile socket_path)).1
           (h.allocSocket (SocketKind.controlSocketFile socket_path)).2) ∧
    BaseController.make_socket_method ops
        (initHeap B M (h.allocSocket (SocketKind.controlSocketFile socket_path)).1
           (h.allocSocket (SocketKind.controlSocketFile socket_path)).2)
        (initCtrl B M (h.allocSocket (SocketKind.controlSocketFile socket_path)).1
           (h.allocSocket (SocketKind.controlSocketFile socket_path)).2) =
      (initHeap B M (h.allocSocket (SocketKind.controlSocketFile socket_path)).1
         (h.allocSocket (SocketKind.controlSocketFile socket_path)).2,
       Except.error (PyError.attributeError "_control_socket"), []) := by
  refine ⟨?_, ?_, ?_, ?_, ?_⟩
  · exact make_socket_eq ops _ _ (init_ctrlAttr_control_socket B M h s)
  · rw [from_port_ok E B M env h addr port hp]
  · exact make_socket_eq ops _ _ (init_ctrlAttr_control_socket B M _ _)
  · rw [from_socket_file_ok E B M env h socket_path hq]
  · exact make_socket_eq ops _ _ (init_ctrlAttr_control_socket B M _ _)

/-- **C8** witness: the `__init__` route evaluated on the concrete heap
`heapW` under the always-successful transport environment. -/
theorem c8_witness :
    envOk (SocketKind.controlPort "127.0.0.1" 9051) = none ∧
    envOk (SocketKind.controlSocketFile "/var/run/tor/control") = none ∧
    BaseController.make_socket_method opsW (initHeap Nat String heapW 0)
        (initCtrl Nat String heapW 0) =
      (initHeap Nat String heapW 0,
       Except.error (PyError.attributeError "_control_socket"), []) :=
  ⟨rfl, rfl,
   (c8_make_socket_attribute_error Nat Nat Nat String opsW envOk heapW 0
      "127.0.0.1" "/var/run/tor/control" 9051 rfl rfl).1⟩

/-- **C10**.  Constructing a second controller over the same socket `s`
re-points `s`'s `_get_self` at the newer controller (a distinct object):
after the second construction the accessor returns the second controller
and no longer the first, while the first controller's own `_socket`
attribute still holds `s`. -/
theorem c10_reconstruction_repoints (B M : Type) (h : Heap) (s : ObjRef)
    (hs : s < h.sockets.length) :
    Heap.callGetSelf (initHeap B M (initHeap B M h s) s) s =
      some (initCtrl B M (initHeap B M h s) s) ∧
    initCtrl B M (initHeap B M h s) s ≠ initCtrl B M h s ∧
    Heap.ctrlAttr (initHeap B M (initHeap B M h s) s) (initCtrl B M h s) "_socket" =
      some s ∧
    Heap.callGetSelf (initHeap B M (initHeap B M h s) s) s ≠
      some (initCtrl B M h s) := by
  have hlen : (initHeap B M h s).sockets.length = h.sockets.length :=
    updateAt_length h.sockets s _
  have hs' : s < (initHeap B M h s).sockets.length := by rw [hlen]; exact hs
  have h1 : Heap.callGetSelf (initHeap B M (initHeap B M h s) s) s =
      some (initCtrl B M (initHeap B M h s) s) :=
    init_callGetSelf B M (initHeap B M h s) s hs'
  have hne : initCtrl B M (initHeap B M h s) s ≠ initCtrl B M h s := by
    show (h.controllers ++ [({ attrs := [("_socket", s)] } : Controller)]).length ≠
      h.controllers.length
    simp only [List.length_append, List.length_cons, List.length_nil]
    omega
  refine ⟨h1, hne, ?_, ?_⟩
  · show (((h.controllers ++ [({ attrs := [("_socket", s)] } : Controller)]) ++
        [({ attrs := [("_socket", s)] } : Controller)]).get? h.controllers.length).bind
        (fun c => c.getattr "_socket") = some s
    rw [get?_append_left _ _ _
          (by simp only [List.length_append, List.length_cons, List.length_nil]; omega),
        get?_append_length]
    rfl
  · rw [h1]
    exact fun hcontra => hne (Option.some.inj hcontra)

/-- **C10** witness: two consecutive constructions over socket `0` of the
concrete heap `heapW`. -/
theorem c10_witness :
    0 < heapW.sockets.length ∧
    (Heap.callGetSelf (initHeap Nat String (initHeap Nat String heapW 0) 0) 0 =
       some (initCtrl Nat String (initHeap Nat String heapW 0) 0) ∧
     initCtrl Nat String (initHeap Nat String heapW 0) 0 ≠ initCtrl Nat String heapW 0 ∧
     Heap.ctrlAttr (initHeap Nat String (initHeap Nat String heapW 0) 0)
       (initCtrl Nat String heapW 0) "_socket" = some 0 ∧
     Heap.callGetSelf (initHeap Nat String (initHeap Nat String heapW 0) 0) 0 ≠
       some (initCtrl Nat String heapW 0)) :=
  ⟨by decide, c10_reconstruction_repoints Nat String heapW 0 (by decide)⟩

end Stem
